import Mathlib

/-!
Verification of the vectorized type/column abstraction layer of the Doris
engine fragment: the logical-type variants, the column store, the
`ColumnWithTypeAndName` triple (`be/src/vec/core/column_with_type_and_name.cpp`)
and the `DataTypeFactory` registry (`be/src/vec/data_types/data_type_factory.hpp`),
shallowly embedded as executable Lean definitions, with theorems settling the
specified properties.
-/

namespace Doris

/-- The closed variant set of logical types. The concrete type classes are
declared outside this fragment; the variant set (primitive scalar kinds,
`Decimal(precision, scale)`, `Array(nested)`, `Nullable(nested)`, `Nothing`)
and the structural-equality contract follow the spec, and the set of
primitives is exactly the one the factory registers
(`data_type_factory.hpp`, lines 52-69). -/
inductive DataType where
  | uInt8
  | uInt16
  | uInt32
  | uInt64
  | int8
  | int16
  | int32
  | int64
  | int128
  | float32
  | float64
  | date
  | dateTime
  | string
  | decimal (precision : Nat) (scale : Nat)
  | array (nested : DataType)
  | nullable (nested : DataType)
  | nothing
deriving DecidableEq, Repr

/-- Structural equality of logical types, `equals(other)`: same variant tag,
same parameters, recursively equal nested type — which on a closed variant
set is exactly decidable equality of the type tree. -/
def DataType.equals (a b : DataType) : Bool :=
  decide (a = b)

/-- Embeds `is_nullable()`: true exactly for the `Nullable` wrapper variant. -/
def DataType.is_nullable : DataType → Bool
  | .nullable _ => true
  | _ => false

/-- Embeds `get_nested_type()` of the composite variants (`DataTypeNullable`,
`DataTypeArray`); a non-composite type has no nested type and is returned
unchanged. -/
def DataType.get_nested_type : DataType → DataType
  | .nullable nested => nested
  | .array nested => nested
  | t => t

/-- Embeds `get_name()`: the canonical kind identifier string of a logical
type. -/
def DataType.get_name : DataType → String
  | .uInt8 => "UInt8"
  | .uInt16 => "UInt16"
  | .uInt32 => "UInt32"
  | .uInt64 => "UInt64"
  | .int8 => "Int8"
  | .int16 => "Int16"
  | .int32 => "Int32"
  | .int64 => "Int64"
  | .int128 => "Int128"
  | .float32 => "Float32"
  | .float64 => "Float64"
  | .date => "Date"
  | .dateTime => "DateTime"
  | .string => "String"
  | .decimal p s => "Decimal(" ++ toString p ++ ", " ++ toString s ++ ")"
  | .array nested => "Array(" ++ nested.get_name ++ ")"
  | .nullable nested => "Nullable(" ++ nested.get_name ++ ")"
  | .nothing => "Nothing"

/-- Modelled from the spec: the column store (`IColumn`), whose concrete
classes are not part of this fragment. A column is either a dense per-row
store or a constant column (one value broadcast over `size` rows without
per-row storage); it tags itself with a self-describing kind string and does
not hold a logical type. Row payloads are abstracted as integers. -/
inductive IColumn where
  | dense (kind : String) (rows : List Int)
  | const (kind : String) (value : Int) (size : Nat)
deriving DecidableEq, Repr

/-- Modelled from the spec: `get_name()` identifies the concrete column kind
(a constant column reports the wrapped kind under a `Const` marker). -/
def IColumn.get_name : IColumn → String
  | .dense kind _ => kind
  | .const kind _ _ => "Const(" ++ kind ++ ")"

/-- Number of rows the column holds (a constant column logically holds
`size` rows with no per-row storage). -/
def IColumn.size : IColumn → Nat
  | .dense _ rows => rows.length
  | .const _ _ n => n

/-- Recognizer of the constant-column sub-kind. -/
def IColumn.is_const : IColumn → Bool
  | .const _ _ _ => true
  | _ => false

/-- Modelled from the spec: `clone_empty()` produces a new, independent,
zero-row instance of the same concrete kind. -/
def IColumn.clone_empty : IColumn → IColumn
  | .dense kind _ => .dense kind []
  | .const kind v _ => .const kind v 0

/-- Modelled from the spec: `convert_to_full_column_if_const()` — a constant
column is materialized into a dense column with the value repeated once per
existing row; any other column is returned unchanged. -/
def IColumn.convert_to_full_column_if_const : IColumn → IColumn
  | .dense kind rows => .dense kind rows
  | .const kind v n => .dense kind (List.replicate n v)

/-- Modelled from the spec: the column's own structural dump — its kind name
and its row count. -/
def IColumn.dump_structure (c : IColumn) : String :=
  c.get_name ++ "(size = " ++ toString c.size ++ ")"

/-- Modelled from the spec: `DataType::to_string(column, row_num)` formats
the value at `row_num` of an already materialized (dense) column; the
rendering of the abstract integer payload is its decimal text. -/
def DataType.to_string (_t : DataType) (c : IColumn) (row_num : Nat) : String :=
  match c with
  | .dense _ rows => ((rows.get? row_num).map (fun v => toString v)).getD ""
  | .const _ v _ => toString v

/-- Embeds `ColumnWithTypeAndName` (`columns_with_type_and_name.h`): an
owned column or null, a shared type or null, and a display name. Null
pointers are embedded as `Option.none`. -/
structure ColumnWithTypeAndName where
  column : Option IColumn
  type : Option DataType
  name : String
deriving DecidableEq, Repr

/-- Embeds `ColumnWithTypeAndName::clone_empty`
(`column_with_type_and_name.cpp`, lines 28-40): copies the name and the
shared type reference, clones the column empty when present and keeps the
null otherwise. -/
def ColumnWithTypeAndName.clone_empty (x : ColumnWithTypeAndName) :
    ColumnWithTypeAndName :=
  { name := x.name
    type := x.type
    column :=
      match x.column with
      | some c => some c.clone_empty
      | none => none }

/-- Embeds `ColumnWithTypeAndName::operator==`
(`column_with_type_and_name.cpp`, lines 42-47): equal names, and types both
null or both non-null and structurally equal, and columns both null or both
non-null with equal `get_name()`. -/
def ColumnWithTypeAndName.equals (x other : ColumnWithTypeAndName) : Bool :=
  x.name == other.name &&
    (match x.type, other.type with
     | none, none => true
     | some t, some t2 => t.equals t2
     | _, _ => false) &&
    (match x.column, other.column with
     | none, none => true
     | some c, some c2 => c.get_name == c2.get_name
     | _, _ => false)

/-- Embeds `ColumnWithTypeAndName::dump_structure(std::ostream&)`
(`column_with_type_and_name.cpp`, lines 49-65): sequentially writes into the
sink the name (or the anonymous marker when the name is empty), then a space
and the type's name (or a `nullptr` marker when the type is null), then a
space and the column's structural dump (or a `nullptr` marker when the
column is null). -/
def ColumnWithTypeAndName.dump_structure_to (x : ColumnWithTypeAndName)
    (out : String) : String :=
  let out := if x.name.isEmpty then out ++ "[Anonymous Column]" else out ++ x.name
  let out :=
    match x.type with
    | some t => out ++ " " ++ t.get_name
    | none => out ++ " nullptr"
  match x.column with
  | some c => out ++ " " ++ c.dump_structure
  | none => out ++ " nullptr"

/-- Embeds the string-returning `ColumnWithTypeAndName::dump_structure()`
(`column_with_type_and_name.cpp`, lines 67-71): the convenience overload
collecting the sink output into a string, starting from an empty stream. -/
def ColumnWithTypeAndName.dump_structure (x : ColumnWithTypeAndName) : String :=
  x.dump_structure_to ""

/-- Embeds `ColumnWithTypeAndName::to_string(size_t)`
(`column_with_type_and_name.cpp`, lines 73-75): formats row `row_num` via
the type, after materializing a possibly-constant column. The source
dereferences `type` and `column` unchecked; absence of either is embedded as
a `none` result. -/
def ColumnWithTypeAndName.to_string (x : ColumnWithTypeAndName)
    (row_num : Nat) : Option String :=
  match x.type, x.column with
  | some t, some c => some (t.to_string c.convert_to_full_column_if_const row_num)
  | _, _ => none

/-- Embeds the `DataTypeFactory` state (`data_type_factory.hpp`, lines
112-114): the forward map canonical-name → type and the inverse list of
(type, name) pairs. The forward map is an association list keyed on the
name; a mapped value is an `Option DataType` because `operator[]` can
default-insert a null `DataTypePtr`. -/
structure DataTypeFactory where
  data_type_map : List (String × Option DataType)
  invert_data_type_map : List (DataType × String)
deriving DecidableEq, Repr

/-- Embeds `DataTypeFactory::register_data_type` (`data_type_factory.hpp`,
lines 107-110): `emplace` into the forward map (a no-op when the key is
already present) and append to the inverse list. -/
def DataTypeFactory.register_data_type (f : DataTypeFactory) (name : String)
    (data_type : DataType) : DataTypeFactory :=
  { data_type_map :=
      if f.data_type_map.any (fun e => e.1 == name) then f.data_type_map
      else f.data_type_map ++ [(name, some data_type)]
    invert_data_type_map := f.invert_data_type_map ++ [(data_type, name)] }

/-- The `base_type_map` contents of the population step
(`data_type_factory.hpp`, lines 52-69), in source listing order; the C++
container is unordered, but every registered type is distinct, so no result
below depends on the order. -/
def base_type_map : List (String × DataType) :=
  [("UInt8", .uInt8), ("UInt16", .uInt16), ("UInt32", .uInt32),
   ("UInt64", .uInt64), ("Int8", .int8), ("Int16", .int16), ("Int32", .int32),
   ("Int64", .int64), ("Int128", .int128), ("Float32", .float32),
   ("Float64", .float64), ("Date", .date), ("DateTime", .dateTime),
   ("String", .string), ("Decimal", .decimal 27 9)]

/-- Embeds `DataTypeFactory::instance()` after its one-time population
(`data_type_factory.hpp`, lines 48-81): for each base entry `(key, val)`,
registers `key ↦ val`, then `Array(key) ↦ Array(val)`, then
`Array(Nullable(key)) ↦ Array(Nullable(val))`. (`instance` is a reserved
word in Lean, hence the longer name.) -/
def DataTypeFactory.factory_instance : DataTypeFactory :=
  base_type_map.foldl
    (fun f kv =>
      ((f.register_data_type kv.1 kv.2).register_data_type
            ("Array(" ++ kv.1 ++ ")") (.array kv.2)).register_data_type
        ("Array(Nullable(" ++ kv.1 ++ "))") (.array (.nullable kv.2)))
    ⟨[], []⟩

/-- Embeds `DataTypePtr DataTypeFactory::get(const std::string&)`
(`data_type_factory.hpp`, line 82): `return _data_type_map[name]` —
`std::unordered_map::operator[]` returns the mapped value when the key is
present, and otherwise default-inserts a value-initialized (null)
`DataTypePtr` under the key and returns it. The possibly mutated factory is
returned alongside the result. -/
def DataTypeFactory.get (f : DataTypeFactory) (name : String) :
    Option DataType × DataTypeFactory :=
  match f.data_type_map.find? (fun e => e.1 == name) with
  | some e => (e.2, f)
  | none => (none, { f with data_type_map := f.data_type_map ++ [(name, none)] })

/-- Embeds `const std::string& DataTypeFactory::get(const DataTypePtr&)`
(`data_type_factory.hpp`, lines 83-93): replace a nullable type by its
nested base type, then linearly scan the inverse list for the first
structurally equal entry and return its name, or the empty string when none
matches. -/
def DataTypeFactory.get_by_type (f : DataTypeFactory) (data_type : DataType) :
    String :=
  let type_ptr :=
    if data_type.is_nullable then data_type.get_nested_type else data_type
  match f.invert_data_type_map.find? (fun e => e.1.equals type_ptr) with
  | some e => e.2
  | none => ""

/-! Shared helper lemmas. -/

/-- Commutativity of boolean string comparison. -/
theorem beq_comm_string (a b : String) : (a == b) = (b == a) := by
  by_cases h : a = b <;> simp [h]
  exact Ne.symm h

/-- Structural type equality is reflexive. -/
theorem DataType.equals_self (t : DataType) : t.equals t = true := by
  simp [DataType.equals]

/-- Structural type equality is symmetric. -/
theorem DataType.equals_comm (a b : DataType) : a.equals b = b.equals a := by
  simp only [DataType.equals]
  exact decide_eq_decide.mpr ⟨Eq.symm, Eq.symm⟩

/-- An empty clone keeps the concrete kind name of the source column. -/
theorem IColumn.clone_empty_get_name (c : IColumn) :
    c.clone_empty.get_name = c.get_name := by
  cases c <;> rfl

/-- An empty clone holds zero rows. -/
theorem IColumn.clone_empty_size (c : IColumn) : c.clone_empty.size = 0 := by
  cases c <;> rfl

/-- A scan of the inverse list with no structurally equal entry yields the
empty string. -/
theorem DataTypeFactory.get_by_type_eq_empty_of_no_match (f : DataTypeFactory)
    (t : DataType)
    (h : ∀ e ∈ f.invert_data_type_map,
        e.1.equals (if t.is_nullable then t.get_nested_type else t) = false) :
    f.get_by_type t = "" := by
  have hfind : f.invert_data_type_map.find?
      (fun e => e.1.equals (if t.is_nullable then t.get_nested_type else t)) =
      none := by
    rw [List.find?_eq_none]
    intro e he
    simp [h e he]
  simp [DataTypeFactory.get_by_type, hfind]

/-! Claim theorems. -/

/-- C1: the claim requires the forward lookup on an unregistered name to
return an explicit not-found result without mutating the registry. The
source instead evaluates `_data_type_map[name]`, which default-inserts a
null entry under the missed name: at the unregistered name `"Foo"` the
lookup returns the null pointer and the forward map afterwards differs from
the forward map before (it gained the entry `("Foo", null)`), while the
inverse list is unchanged. -/
theorem C1_forward_get_default_inserts_on_miss :
    DataTypeFactory.factory_instance.data_type_map.find?
        (fun e => e.1 == ("Foo" : String)) = none ∧
    (DataTypeFactory.factory_instance.get ("Foo")).1 = none ∧
    (DataTypeFactory.factory_instance.get ("Foo")).2.invert_data_type_map =
      DataTypeFactory.factory_instance.invert_data_type_map ∧
    (DataTypeFactory.factory_instance.get ("Foo")).2.data_type_map =
      DataTypeFactory.factory_instance.data_type_map ++ [("Foo", none)] ∧
    (DataTypeFactory.factory_instance.get ("Foo")).2.data_type_map ≠
      DataTypeFactory.factory_instance.data_type_map := by
  exact ⟨by decide, by decide, by decide, by decide, by decide⟩

/-- C2: for every registered primitive name `P` with registered type `T`,
the inverse lookup on `Nullable(T)` strips the top-level wrapper and returns
the same canonical name as the inverse lookup on `T`; and a type whose
(unwrapped) form matches no entry of the inverse list yields the empty
not-found result. -/
theorem C2_nullable_unwrap_round_trip (P : String) (T : DataType)
    (h : (P, T) ∈ base_type_map) :
    ((DataTypeFactory.factory_instance.get P).1 = some T ∧
     DataTypeFactory.factory_instance.get_by_type (.nullable T) =
       DataTypeFactory.factory_instance.get_by_type T) ∧
    (∀ (f : DataTypeFactory) (t : DataType),
       (∀ e ∈ f.invert_data_type_map,
          e.1.equals (if t.is_nullable then t.get_nested_type else t) = false) →
       f.get_by_type t = "") := by
  constructor
  · fin_cases h <;> exact (by decide)
  · exact fun f t ht => DataTypeFactory.get_by_type_eq_empty_of_no_match f t ht

/-- C2 witness: instantiation at the registered primitive `"Int32"`. -/
theorem C2_witness :
    (DataTypeFactory.factory_instance.get ("Int32")).1 = some .int32 ∧
    DataTypeFactory.factory_instance.get_by_type (.nullable .int32) =
      DataTypeFactory.factory_instance.get_by_type DataType.int32 :=
  (C2_nullable_unwrap_round_trip "Int32" .int32 (by decide)).1

/-- C3: after population, every registered primitive name `P` resolves to a
non-nullable type `T` with `T.equals T`; `Array(P)` resolves to the array
type wrapping `T`, and `Array(Nullable(P))` to the array type wrapping a
nullable wrapping `T`; and registering a fresh name inserts into both the
forward map and the inverse list. -/
theorem C3_population_registers_primitives_and_arrays (P : String)
    (T : DataType) (h : (P, T) ∈ base_type_map) :
    ((DataTypeFactory.factory_instance.get P).1 = some T ∧
     T.is_nullable = false ∧ T.equals T = true ∧
     (DataTypeFactory.factory_instance.get ("Array(" ++ P ++ ")")).1 =
       some (.array T) ∧
     (DataTypeFactory.factory_instance.get ("Array(Nullable(" ++ P ++ "))")).1 =
       some (.array (.nullable T))) ∧
    (∀ (f : DataTypeFactory) (nm : String) (t : DataType),
       f.data_type_map.find? (fun e => e.1 == nm) = none →
       ((f.register_data_type nm t).get nm).1 = some t ∧
       (t, nm) ∈ (f.register_data_type nm t).invert_data_type_map) := by
  constructor
  · fin_cases h <;> exact (by decide)
  · intro f nm t hmiss
    have hany : f.data_type_map.any (fun e => e.1 == nm) = false := by
      rw [List.any_eq_false]
      intro e he
      exact List.find?_eq_none.mp hmiss e he
    constructor
    · simp [DataTypeFactory.get, DataTypeFactory.register_data_type, hany,
        List.find?_append, hmiss]
    · simp [DataTypeFactory.register_data_type]

/-- C3 witness: instantiation at the registered primitive `"UInt8"`. -/
theorem C3_witness :
    (DataTypeFactory.factory_instance.get ("UInt8")).1 = some .uInt8 ∧
    DataType.uInt8.is_nullable = false ∧
    DataType.uInt8.equals .uInt8 = true ∧
    (DataTypeFactory.factory_instance.get ("Array(UInt8)")).1 =
      some (.array .uInt8) ∧
    (DataTypeFactory.factory_instance.get ("Array(Nullable(UInt8))")).1 =
      some (.array (.nullable .uInt8)) :=
  (C3_population_registers_primitives_and_arrays "UInt8" .uInt8 (by decide)).1

/-- C4: `clone_empty` returns a triple with the same name string, the same
shared type (absence preserved), and the column cloned empty when present
and kept absent otherwise; every empty clone of a column holds zero rows and
keeps the concrete kind name of its source. (The embedding is a pure
function of the source triple, which is therefore unmodified.) -/
theorem C4_clone_empty_fields (x : ColumnWithTypeAndName) :
    (x.clone_empty).name = x.name ∧
    (x.clone_empty).type = x.type ∧
    (x.clone_empty).column = Option.map IColumn.clone_empty x.column ∧
    (∀ c : IColumn,
       c.clone_empty.size = 0 ∧ c.clone_empty.get_name = c.get_name) := by
  refine ⟨rfl, rfl, ?_,
    fun c => ⟨IColumn.clone_empty_size c, IColumn.clone_empty_get_name c⟩⟩
  cases h : x.column <;> simp [ColumnWithTypeAndName.clone_empty, h]

/-- C5: equality of typed columns holds exactly when the names agree, the
types are both absent or both present and structurally equal, and the
columns are both absent or both present with equal kind names; it is
reflexive and symmetric, and it never inspects row contents — two triples
differing only in the rows of same-kind columns are equal. -/
theorem C5_equality_characterization :
    (∀ x y : ColumnWithTypeAndName, x.equals y = true ↔
        (x.name = y.name ∧
         ((x.type = none ∧ y.type = none) ∨
          (∃ a b, x.type = some a ∧ y.type = some b ∧ a.equals b = true)) ∧
         ((x.column = none ∧ y.column = none) ∨
          (∃ c d, x.column = some c ∧ y.column = some d ∧
             c.get_name = d.get_name)))) ∧
    (∀ x : ColumnWithTypeAndName, x.equals x = true) ∧
    (∀ x y : ColumnWithTypeAndName, x.equals y = y.equals x) ∧
    (∀ (n : String) (t : Option DataType) (c1 c2 : IColumn),
       c1.get_name = c2.get_name →
       ColumnWithTypeAndName.equals ⟨some c1, t, n⟩ ⟨some c2, t, n⟩ = true) := by
  refine ⟨?_, ?_, ?_, ?_⟩
  · intro x y
    rcases x with ⟨xc, xt, xn⟩
    rcases y with ⟨yc, yt, yn⟩
    cases xt <;> cases yt <;> cases xc <;> cases yc <;>
      simp [ColumnWithTypeAndName.equals, DataType.equals, and_assoc]
  · intro x
    rcases x with ⟨xc, xt, xn⟩
    cases xt <;> cases xc <;>
      simp [ColumnWithTypeAndName.equals, DataType.equals_self]
  · intro x y
    rcases x with ⟨xc, xt, xn⟩
    rcases y with ⟨yc, yt, yn⟩
    cases xt <;> cases yt <;> cases xc <;> cases yc <;>
      simp [ColumnWithTypeAndName.equals, DataType.equals_comm, beq_comm_string]
  · intro n t c1 c2 h
    cases t <;> simp [ColumnWithTypeAndName.equals, DataType.equals_self, h]

/-- C6: the structural dump writes, in fixed order, the name (or the
anonymous marker for an empty name), a space and the type name (or a null
marker), a space and the column's own dump (or a null marker); on the triple
with empty name and absent type and column it produces exactly the anonymous
marker followed by the two null markers. -/
theorem C6_dump_structure_format :
    (∀ x : ColumnWithTypeAndName,
       x.dump_structure =
         (if x.name.isEmpty then "[Anonymous Column]" else x.name) ++
           ((match x.type with
             | some t => " " ++ t.get_name
             | none => " nullptr") ++
            (match x.column with
             | some c => " " ++ c.dump_structure
             | none => " nullptr"))) ∧
    ColumnWithTypeAndName.dump_structure ⟨none, none, ""⟩ =
      "[Anonymous Column] nullptr nullptr" := by
  constructor
  · intro x
    rcases x with ⟨xc, xt, xn⟩
    cases xt <;> cases xc <;>
      (simp [ColumnWithTypeAndName.dump_structure,
        ColumnWithTypeAndName.dump_structure_to, String.append_assoc];
       try rfl)
  · rfl

/-- C7: equality and the structural dump are total over all states of the
triple, absent type and column included: a state with only one of the two
types (or columns) present compares unequal through the null-symmetric
branch, a state with both absent compares through the remaining fields, and
the dump emits the null marker in place of an absent type or column — no
branch requires a present value. -/
theorem C7_equality_and_dump_total_on_absent (x y : ColumnWithTypeAndName) :
    (x.type.isNone ≠ y.type.isNone → x.equals y = false) ∧
    (x.column.isNone ≠ y.column.isNone → x.equals y = false) ∧
    (x.type = none → y.type = none →
       x.equals y = (x.name == y.name &&
         (match x.column, y.column with
          | none, none => true
          | some c, some c2 => c.get_name == c2.get_name
          | _, _ => false))) ∧
    (x.type = none →
       x.dump_structure =
         ((if x.name.isEmpty then "[Anonymous Column]" else x.name) ++
             " nullptr") ++
           (match x.column with
            | some c => " " ++ c.dump_structure
            | none => " nullptr")) ∧
    (x.column = none →
       x.dump_structure =
         ((if x.name.isEmpty then "[Anonymous Column]" else x.name) ++
            (match x.type with
             | some t => " " ++ t.get_name
             | none => " nullptr")) ++ " nullptr") := by
  refine ⟨?_, ?_, ?_, ?_, ?_⟩
  · intro hne
    cases h1 : x.type <;> cases h2 : y.type <;>
      simp [h1, h2] at hne <;>
      cases h3 : x.column <;> cases h4 : y.column <;>
      simp [ColumnWithTypeAndName.equals, h1, h2, h3, h4]
  · intro hne
    cases h1 : x.column <;> cases h2 : y.column <;>
      simp [h1, h2] at hne <;>
      cases h3 : x.type <;> cases h4 : y.type <;>
      simp [ColumnWithTypeAndName.equals, h1, h2, h3, h4]
  · intro h1 h2
    cases h3 : x.column <;> cases h4 : y.column <;>
      simp [ColumnWithTypeAndName.equals, h1, h2, h3, h4]
  · intro h1
    cases h2 : x.column <;>
      (simp [ColumnWithTypeAndName.dump_structure,
        ColumnWithTypeAndName.dump_structure_to, h1, h2,
        String.append_assoc];
       try rfl)
  · intro h2
    cases h1 : x.type <;>
      (simp [ColumnWithTypeAndName.dump_structure,
        ColumnWithTypeAndName.dump_structure_to, h1, h2,
        String.append_assoc];
       try rfl)

/-- C8: when both the type and the column are present, `to_string(row_num)`
is exactly the type's rendering of the constant-materialized column at
`row_num`; the materialized column is never a constant column and holds the
same number of rows as the source column. -/
theorem C8_to_string_materializes_const (x : ColumnWithTypeAndName)
    (t : DataType) (c : IColumn) (ht : x.type = some t)
    (hc : x.column = some c) (row_num : Nat) :
    x.to_string row_num =
      some (t.to_string c.convert_to_full_column_if_const row_num) ∧
    c.convert_to_full_column_if_const.is_const = false ∧
    c.convert_to_full_column_if_const.size = c.size := by
  refine ⟨?_, ?_, ?_⟩
  · simp [ColumnWithTypeAndName.to_string, ht, hc]
  · cases c <;> rfl
  · cases c <;> simp [IColumn.convert_to_full_column_if_const, IColumn.size]

/-- C8 witness: a triple holding the `Int32` type and a constant column of
three rows of the value seven, rendered at row one. -/
theorem C8_witness :
    ColumnWithTypeAndName.to_string
        ⟨some (.const ("ColumnInt32") 7 3), some .int32, "c1"⟩ 1 =
      some (DataType.int32.to_string
        (IColumn.const ("ColumnInt32") 7 3).convert_to_full_column_if_const 1) ∧
    (IColumn.const ("ColumnInt32") 7 3).convert_to_full_column_if_const.is_const =
      false ∧
    (IColumn.const ("ColumnInt32") 7 3).convert_to_full_column_if_const.size =
      (IColumn.const ("ColumnInt32") 7 3).size :=
  C8_to_string_materializes_const
    ⟨some (.const ("ColumnInt32") 7 3), some .int32, "c1"⟩
    .int32 (.const ("ColumnInt32") 7 3) rfl rfl 1

/-- C9: an empty clone of a typed column is equal to its source under the
schema equality, since the name is copied, the shared type is preserved and
structural equality is reflexive, and the cloned column keeps the kind name
of the source column. -/
theorem C9_clone_empty_schema_equal (x : ColumnWithTypeAndName) :
    x.clone_empty.equals x = true := by
  rcases x with ⟨xc, xt, xn⟩
  cases xt <;> cases xc <;>
    simp [ColumnWithTypeAndName.clone_empty, ColumnWithTypeAndName.equals,
      DataType.equals_self, IColumn.clone_empty_get_name]

/-- C10: only top-level nullability is stripped by the inverse lookup: the
registered `Array(Nullable(P))` type is not itself nullable, so its inverse
lookup keeps the nested wrapper and returns its own canonical name
`Array(Nullable(P))`, which differs from `Array(P)` (whose name the plain
array type returns). -/
theorem C10_nested_nullable_not_stripped (P : String) (T : DataType)
    (h : (P, T) ∈ base_type_map) :
    (DataType.array (.nullable T)).is_nullable = false ∧
    DataTypeFactory.factory_instance.get_by_type (.array (.nullable T)) =
      "Array(Nullable(" ++ P ++ "))" ∧
    DataTypeFactory.factory_instance.get_by_type (.array T) =
      "Array(" ++ P ++ ")" ∧
    ("Array(Nullable(" ++ P ++ "))" : String) ≠ "Array(" ++ P ++ ")" := by
  fin_cases h <;> exact (by decide)

/-- C10 witness: instantiation at the registered primitive `"UInt8"`. -/
theorem C10_witness :
    (DataType.array (.nullable .uInt8)).is_nullable = false ∧
    DataTypeFactory.factory_instance.get_by_type (.array (.nullable .uInt8)) =
      "Array(Nullable(" ++ "UInt8" ++ "))" ∧
    DataTypeFactory.factory_instance.get_by_type (.array .uInt8) =
      "Array(" ++ "UInt8" ++ ")" ∧
    ("Array(Nullable(" ++ "UInt8" ++ "))" : String) ≠
      "Array(" ++ "UInt8" ++ ")" :=
  C10_nested_nullable_not_stripped "UInt8" .uInt8 (by decide)

end Doris
